import Mathlib

/-!
Shallow embedding of the messaging subsystem of the umbrella backend
(`app/crud.py`, `app/websocket_manager.py`).  Database tables are lists of
rows; ORM queries become list operations; `HTTPException` and `ValueError`
become an error type returned through `Except`.  SQL `ORDER BY` is modelled
with `List.insertionSort`.
-/

namespace Umbrella

/-- Row of the `chats` table as used by `app/crud.py` (`user1_id`, `user2_id`,
`is_accepted`, `blocked_by`, `created_at`). -/
structure Chat where
  id : Nat
  user1_id : Nat
  user2_id : Nat
  is_accepted : Bool
  blocked_by : Option Nat
  created_at : Nat
  deriving DecidableEq

/-- Row of the `messages` table as used by `app/crud.py`. -/
structure Message where
  id : Nat
  chat_id : Option Nat
  group_id : Option Nat
  sender_id : Nat
  content : Option String
  media_url : Option String
  message_type : String
  edited_at : Option Nat
  is_deleted_for_all : Bool
  created_at : Nat
  deriving DecidableEq

/-- Row of the `message_visibility` table: message hidden for one user. -/
structure MessageVisibility where
  message_id : Nat
  user_id : Nat
  deriving DecidableEq

/-- Row of the `reactions` table. -/
structure Reaction where
  message_id : Nat
  user_id : Nat
  emoji : String
  deriving DecidableEq

/-- Row of the `group_members` table. -/
structure GroupMember where
  group_id : Nat
  user_id : Nat
  deriving DecidableEq

/-- Directed block edge (blocker, blocked). -/
structure Block where
  blocker_id : Nat
  blocked_id : Nat
  deriving DecidableEq

/-- The relational store.  `next_chat_id` and `next_message_id` model fresh id
generation (`uuid4` / autoincrement); `now` models `datetime.utcnow()`. -/
structure DB where
  chats : List Chat
  messages : List Message
  visibilities : List MessageVisibility
  reactions : List Reaction
  group_members : List GroupMember
  blocks : List Block
  next_chat_id : Nat
  next_message_id : Nat
  now : Nat
  deriving DecidableEq

/-- Errors raised by the crud layer: `ValueError` and `HTTPException`. -/
inductive CrudError where
  | valueError (msg : String)
  | httpError (status : Nat) (detail : String)
  deriving DecidableEq

deriving instance DecidableEq for Except

/-- SQL `column IS NULL` (the `== None` comparison in a sqlalchemy filter). -/
def sqlIsNull (o : Option Nat) : Bool := o.isNone

/-- SQL `column != literal` under three-valued logic: a NULL column compares
to not-true, so the row is not selected. -/
def sqlNe (o : Option Nat) (v : Nat) : Bool :=
  match o with
  | none => false
  | some x => x != v

/-- The unordered-pair filter of `create_or_get_chat`:
`or_(and_(user1==u, user2==t), and_(user1==t, user2==u))`. -/
def chatPairPred (user_id target_user_id : Nat) (c : Chat) : Bool :=
  (c.user1_id == user_id && c.user2_id == target_user_id) ||
  (c.user1_id == target_user_id && c.user2_id == user_id)

/-- `crud.create_or_get_chat`: reject self-chat, return the existing chat for
the unordered pair if any, otherwise insert a fresh accepted chat. -/
def create_or_get_chat (db : DB) (user_id target_user_id : Nat) :
    Except CrudError (DB × Chat) :=
  if user_id == target_user_id then
    .error (.valueError "Cannot create a chat with yourself")
  else
    match db.chats.find? (chatPairPred user_id target_user_id) with
    | some chat => .ok (db, chat)
    | none =>
      let new_chat : Chat :=
        { id := db.next_chat_id, user1_id := user_id, user2_id := target_user_id,
          is_accepted := true, blocked_by := none, created_at := db.now }
      .ok ({ db with chats := db.chats ++ [new_chat],
                     next_chat_id := db.next_chat_id + 1 }, new_chat)

/-- Ordering used by `get_user_chats`: `created_at` descending. -/
def chatCreatedDesc (c1 c2 : Chat) : Prop := c2.created_at ≤ c1.created_at

instance : DecidableRel chatCreatedDesc := fun _ _ => Nat.decLe _ _

instance : IsTotal Chat chatCreatedDesc := ⟨fun a b => Nat.le_total b.created_at a.created_at⟩

instance : IsTrans Chat chatCreatedDesc := ⟨fun _ _ _ h1 h2 => Nat.le_trans h2 h1⟩

/-- `crud.get_user_chats`: chats where the user participates, `is_accepted`,
and `or_(blocked_by == None, blocked_by != user_id)`, ordered by `created_at`
descending. -/
def get_user_chats (db : DB) (user_id : Nat) : List Chat :=
  (db.chats.filter (fun c =>
    (c.user1_id == user_id || c.user2_id == user_id) &&
    c.is_accepted &&
    (sqlIsNull c.blocked_by || sqlNe c.blocked_by user_id))).insertionSort chatCreatedDesc

/-- Modelled from the spec: `BlockRegistry.IsBlocked(a,b)` of sections 2 and
4.4 — true if a block edge exists in either direction.  The block CRUD
(`crud.block_user` and friends, called from `app/routes/block.py`) is not
among the source files; only this predicate is needed to state claims. -/
def is_blocked (db : DB) (a b : Nat) : Bool :=
  db.blocks.any (fun bl =>
    (bl.blocker_id == a && bl.blocked_id == b) ||
    (bl.blocker_id == b && bl.blocked_id == a))

/-- Update the messages whose `id` equals `mid` (the ORM loads the row by
primary key with `filter_by(id=message_id).first()` and mutates it). -/
def updMessages (msgs : List Message) (mid : Nat) (f : Message → Message) : List Message :=
  msgs.map (fun x => if x.id == mid then f x else x)

/-- Whether a `MessageVisibility` row exists for `(mid, uid)`; used both for
the `already_hidden` lookup in `delete_message` and for the correlated
`EXISTS` subquery in `get_filtered_messages`. -/
def hasVisibilityRow (db : DB) (mid uid : Nat) : Bool :=
  (db.visibilities.find? (fun v => v.message_id == mid && v.user_id == uid)).isSome

/-- `crud.edit_message`: `if not message or message.sender_id != user_id`
raises 403; otherwise sets `content = new_content`, `edited_at = now`. -/
def edit_message (db : DB) (message_id user_id : Nat) (new_content : String) :
    Except CrudError (DB × Message) :=
  match db.messages.find? (fun x => x.id == message_id) with
  | none => .error (.httpError 403 "Only the sender can edit the message")
  | some message =>
    if message.sender_id == user_id then
      let message' := { message with content := some new_content, edited_at := some db.now }
      let msgs' := updMessages db.messages message_id
        (fun x => { x with content := some new_content, edited_at := some db.now })
      .ok ({ db with messages := msgs' }, message')
    else
      .error (.httpError 403 "Only the sender can edit the message")

/-- `crud.delete_message`: 404 if the message is absent; `for_everyone=True`
requires the sender and sets the tombstone flag; `for_everyone=False` inserts
a `MessageVisibility(message, user)` row unless one already exists. -/
def delete_message (db : DB) (message_id user_id : Nat) (for_everyone : Bool) :
    Except CrudError DB :=
  match db.messages.find? (fun x => x.id == message_id) with
  | none => .error (.httpError 404 "Message not found")
  | some message =>
    if for_everyone then
      if message.sender_id == user_id then
        let msgs' := updMessages db.messages message_id
          (fun x => { x with is_deleted_for_all := true })
        .ok { db with messages := msgs' }
      else
        .error (.httpError 403 "Only sender can delete for everyone")
    else
      if hasVisibilityRow db message_id user_id then
        .ok db
      else
        .ok { db with visibilities := db.visibilities ++ [⟨message_id, user_id⟩] }

/-- `crud.unsend_message`: requires the sender; sets
`content = "[Message deleted]"`, `media_url = None`,
`is_deleted_for_all = True`. -/
def unsend_message (db : DB) (message_id user_id : Nat) : Except CrudError DB :=
  match db.messages.find? (fun x => x.id == message_id) with
  | none => .error (.httpError 403 "Only sender can unsend")
  | some message =>
    if message.sender_id == user_id then
      let msgs' := updMessages db.messages message_id
        (fun x => { x with content := some "[Message deleted]",
                           media_url := none,
                           is_deleted_for_all := true })
      .ok { db with messages := msgs' }
    else
      .error (.httpError 403 "Only sender can unsend")

/-- `crud.react_to_message`: upsert a reaction keyed by `(message, user)`,
then return the row read back by the final query. -/
def react_to_message (db : DB) (message_id user_id : Nat) (emoji : String) :
    DB × Option Reaction :=
  let db' :=
    match db.reactions.find? (fun r => r.message_id == message_id && r.user_id == user_id) with
    | some _ =>
      { db with reactions := db.reactions.map (fun r =>
          if r.message_id == message_id && r.user_id == user_id then
            { r with emoji := emoji }
          else r) }
    | none =>
      { db with reactions := db.reactions ++ [⟨message_id, user_id, emoji⟩] }
  (db', db'.reactions.find? (fun r => r.message_id == message_id && r.user_id == user_id))

/-- Ordering used by `get_filtered_messages`: `created_at` ascending. -/
def msgCreatedAsc (m1 m2 : Message) : Prop := m1.created_at ≤ m2.created_at

instance : DecidableRel msgCreatedAsc := fun _ _ => Nat.decLe _ _

instance : IsTotal Message msgCreatedAsc := ⟨fun a b => Nat.le_total a.created_at b.created_at⟩

instance : IsTrans Message msgCreatedAsc := ⟨fun _ _ _ h1 h2 => Nat.le_trans h1 h2⟩

/-- Case-insensitive substring test: SQL `content ILIKE '%search%'`; a NULL
`content` compares to not-true. -/
def ilikeContains (content : Option String) (search : String) : Bool :=
  match content with
  | none => false
  | some c =>
    (List.range (c.length + 1)).any (fun i => search.toLower.isPrefixOf ((c.toLower).drop i))

/-- The optional `type` filter of `get_filtered_messages` (`if type:` — a
Python empty string is falsy). -/
def typeFilter (msgs : List Message) (ty : Option String) : List Message :=
  match ty with
  | some t => if t == "" then msgs else msgs.filter (fun m => m.message_type == t)
  | none => msgs

/-- The optional `search` filter of `get_filtered_messages` (`if search:`). -/
def searchFilter (msgs : List Message) (search : Option String) : List Message :=
  match search with
  | some s => if s == "" then msgs else msgs.filter (fun m => ilikeContains m.content s)
  | none => msgs

/-- Both optional filters, in the order the source applies them. -/
def applyFilters (msgs : List Message) (search ty : Option String) : List Message :=
  searchFilter (typeFilter msgs ty) search

/-- `crud.get_filtered_messages`: for a chat target, exclude tombstoned
messages and messages with a visibility row for the viewer; for a group
target, exclude tombstoned messages only; then apply the optional filters and
order by `created_at` ascending. -/
def get_filtered_messages (db : DB) (chat_id group_id : Option Nat) (user_id : Nat)
    (search ty : Option String) : Except CrudError (List Message) :=
  match chat_id with
  | some cid =>
    .ok ((applyFilters (db.messages.filter (fun m =>
        m.chat_id == some cid &&
        m.is_deleted_for_all == false &&
        !(hasVisibilityRow db m.id user_id))) search ty).insertionSort msgCreatedAsc)
  | none =>
    match group_id with
    | some gid =>
      .ok ((applyFilters (db.messages.filter (fun m =>
          m.group_id == some gid &&
          m.is_deleted_for_all == false)) search ty).insertionSort msgCreatedAsc)
    | none => .error (.httpError 400 "chat_id or group_id is required")

/-- Whether a `GroupMember` row exists for `(gid, uid)`
(`filter_by(group_id=..., user_id=...).first()`). -/
def isGroupMember (db : DB) (gid uid : Nat) : Bool :=
  (db.group_members.find? (fun g => g.group_id == gid && g.user_id == uid)).isSome

/-- `crud.forward_message`: 404 if the original is absent; a chat target gets
the copy unconditionally, a group target requires membership; the copy takes
`content`, `media_url`, `message_type` from the original with a fresh id and
`created_at` and default edit/delete state. -/
def forward_message (db : DB) (original_message_id sender_id : Nat)
    (target_chat_id target_group_id : Option Nat) : Except CrudError (DB × Message) :=
  match db.messages.find? (fun x => x.id == original_message_id) with
  | none => .error (.httpError 404 "Original message not found")
  | some original =>
    match target_chat_id with
    | some cid =>
      let message : Message :=
        { id := db.next_message_id, chat_id := some cid, group_id := none,
          sender_id := sender_id, content := original.content,
          media_url := original.media_url, message_type := original.message_type,
          edited_at := none, is_deleted_for_all := false, created_at := db.now }
      .ok ({ db with messages := db.messages ++ [message],
                     next_message_id := db.next_message_id + 1 }, message)
    | none =>
      match target_group_id with
      | some gid =>
        if isGroupMember db gid sender_id then
          let message : Message :=
            { id := db.next_message_id, chat_id := none, group_id := some gid,
              sender_id := sender_id, content := original.content,
              media_url := original.media_url, message_type := original.message_type,
              edited_at := none, is_deleted_for_all := false, created_at := db.now }
          .ok ({ db with messages := db.messages ++ [message],
                         next_message_id := db.next_message_id + 1 }, message)
        else
          .error (.httpError 403 "You are not a member of the group")
      | none => .error (.httpError 400 "Target chat or group ID required")

/-- State of `websocket_manager.ConnectionManager`: `active_connections` maps
a user id to its (opaque handle of a) live WebSocket, `chat_subscribers` maps
a chat id to the set of subscribed user ids. -/
structure ConnectionManager where
  active_connections : List (Nat × Nat)
  chat_subscribers : List (String × List Nat)
  deriving DecidableEq

/-- `self.active_connections.get(user_id)`. -/
def getConnection (m : ConnectionManager) (user_id : Nat) : Option Nat :=
  (m.active_connections.find? (fun p => p.1 == user_id)).map (fun p => p.2)

/-- `self.chat_subscribers.get(chat_id, set())`. -/
def subscribersOf (m : ConnectionManager) (chat_id : String) : List Nat :=
  ((m.chat_subscribers.find? (fun p => p.1 == chat_id)).map (fun p => p.2)).getD []

/-- `ConnectionManager.send_to_user`: deliver iff a live connection exists
(`if websocket:` — a WebSocket object is truthy); returns the deliveries
performed. -/
def send_to_user (m : ConnectionManager) (user_id : Nat) (data : String) :
    List (Nat × String) :=
  match getConnection m user_id with
  | some _ => [(user_id, data)]
  | none => []

/-- `ConnectionManager.broadcast_to_chat`: `send_to_user` for every user in
the chat's subscriber set; the registry itself is not written, so the state
component of the result is the input state. -/
def broadcast_to_chat (m : ConnectionManager) (chat_id : String) (data : String) :
    ConnectionManager × List (Nat × String) :=
  (m, (subscribersOf m chat_id).flatMap (fun u => send_to_user m u data))

/-- `ConnectionManager.is_online`: `user_id in self.active_connections`. -/
def is_online (m : ConnectionManager) (user_id : Nat) : Bool :=
  (getConnection m user_id).isSome

/-! ## Concrete stores used by witnesses and counterexamples -/

def c1Chat : Chat :=
  { id := 1, user1_id := 1, user2_id := 2, is_accepted := true,
    blocked_by := some 1, created_at := 5 }

def c1DB : DB :=
  { chats := [c1Chat], messages := [], visibilities := [], reactions := [],
    group_members := [], blocks := [], next_chat_id := 2, next_message_id := 1, now := 9 }

def c2DB : DB :=
  { chats := [], messages := [], visibilities := [], reactions := [],
    group_members := [], blocks := [⟨1, 2⟩], next_chat_id := 1, next_message_id := 1,
    now := 0 }

def c2NewChat : Chat :=
  { id := 1, user1_id := 1, user2_id := 2, is_accepted := true,
    blocked_by := none, created_at := 0 }

def c3Msg : Message :=
  { id := 10, chat_id := some 3, group_id := none, sender_id := 1,
    content := some "hi", media_url := some "m.png", message_type := "text",
    edited_at := none, is_deleted_for_all := false, created_at := 2 }

def c3DB : DB :=
  { chats := [], messages := [c3Msg], visibilities := [], reactions := [],
    group_members := [], blocks := [], next_chat_id := 1, next_message_id := 11, now := 7 }

def c3DBd : DB := { c3DB with messages := [{ c3Msg with is_deleted_for_all := true }] }

def c3MsgUns : Message :=
  { c3Msg with content := some "[Message deleted]", media_url := none,
               is_deleted_for_all := true }

def c3DBu : DB := { c3DB with messages := [c3MsgUns] }

def c4Msg : Message :=
  { id := 10, chat_id := some 3, group_id := none, sender_id := 1,
    content := some "old", media_url := none, message_type := "text",
    edited_at := none, is_deleted_for_all := true, created_at := 2 }

def c4DB : DB :=
  { chats := [], messages := [c4Msg], visibilities := [], reactions := [],
    group_members := [], blocks := [], next_chat_id := 1, next_message_id := 11, now := 8 }

def c5Msg : Message :=
  { id := 20, chat_id := none, group_id := some 5, sender_id := 1,
    content := some "alive", media_url := none, message_type := "text",
    edited_at := none, is_deleted_for_all := false, created_at := 1 }

def c5Tomb : Message :=
  { id := 21, chat_id := none, group_id := some 5, sender_id := 1,
    content := some "gone", media_url := none, message_type := "text",
    edited_at := none, is_deleted_for_all := true, created_at := 2 }

def c5DB : DB :=
  { chats := [], messages := [c5Msg, c5Tomb], visibilities := [], reactions := [],
    group_members := [], blocks := [], next_chat_id := 1, next_message_id := 22, now := 9 }

def c6Msg : Message :=
  { id := 10, chat_id := some 3, group_id := none, sender_id := 1,
    content := some "hi", media_url := some "pic.png", message_type := "image",
    edited_at := some 4, is_deleted_for_all := false, created_at := 2 }

def c6DB : DB :=
  { chats := [], messages := [c6Msg], visibilities := [], reactions := [],
    group_members := [], blocks := [], next_chat_id := 1, next_message_id := 11, now := 9 }

def c6Fwd : Message :=
  { id := 11, chat_id := some 77, group_id := none, sender_id := 9,
    content := some "hi", media_url := some "pic.png", message_type := "image",
    edited_at := none, is_deleted_for_all := false, created_at := 9 }

def c7Msg : Message :=
  { id := 10, chat_id := some 3, group_id := none, sender_id := 1,
    content := some "hello", media_url := none, message_type := "text",
    edited_at := none, is_deleted_for_all := false, created_at := 2 }

def c7DB : DB :=
  { chats := [], messages := [c7Msg], visibilities := [], reactions := [],
    group_members := [], blocks := [], next_chat_id := 1, next_message_id := 11, now := 9 }

def c7DBAfter : DB := { c7DB with visibilities := [⟨10, 2⟩] }

def c8DB : DB :=
  { chats := [], messages := [], visibilities := [], reactions := [],
    group_members := [], blocks := [], next_chat_id := 1, next_message_id := 1,
    now := 4 }

def c9Mgr : ConnectionManager :=
  { active_connections := [(1, 100), (2, 200)], chat_subscribers := [("room", [1, 2, 3])] }

def c10Msg : Message :=
  { id := 10, chat_id := some 3, group_id := none, sender_id := 1,
    content := some "hi", media_url := none, message_type := "text",
    edited_at := none, is_deleted_for_all := false, created_at := 2 }

def c10DB : DB :=
  { chats := [⟨3, 1, 2, true, none, 1⟩], messages := [c10Msg], visibilities := [],
    reactions := [], group_members := [], blocks := [], next_chat_id := 4,
    next_message_id := 11, now := 9 }

/-! ## General lemmas -/

/-- The blocked-by disjunct of the `get_user_chats` filter selects exactly the
chats whose `blocked_by` differs from the querying user. -/
theorem sql_blocked_cond (o : Option Nat) (u : Nat) :
    (sqlIsNull o || sqlNe o u) = true ↔ o ≠ some u := by
  cases o <;> simp [sqlIsNull, sqlNe]

/-- The unordered-pair filter is symmetric in the two users. -/
theorem chatPairPred_symm (a b : Nat) : chatPairPred b a = chatPairPred a b :=
  funext fun c => Bool.or_comm _ _

/-- Finding in a list extended by one element, when the base list has no hit. -/
theorem find?_append_singleton_of_none {α} (p : α → Bool) (l : List α) (x : α)
    (h : l.find? p = none) : (l ++ [x]).find? p = if p x then some x else none := by
  rw [List.find?_append, h]
  cases hx : p x <;> simp [List.find?, hx]

/-- With no optional filters, the chat branch of `get_filtered_messages`
reduces to the base filter followed by the ascending sort. -/
theorem get_filtered_chat_eq (db : DB) (cid uid : Nat) :
    get_filtered_messages db (some cid) none uid none none =
      .ok ((db.messages.filter (fun m => m.chat_id == some cid &&
        m.is_deleted_for_all == false &&
        !(hasVisibilityRow db m.id uid))).insertionSort msgCreatedAsc) := rfl

/-- With no optional filters, the group branch of `get_filtered_messages`
reduces to the base filter followed by the ascending sort. -/
theorem get_filtered_group_eq (db : DB) (gid uid : Nat) :
    get_filtered_messages db none (some gid) uid none none =
      .ok ((db.messages.filter (fun m => m.group_id == some gid &&
        m.is_deleted_for_all == false)).insertionSort msgCreatedAsc) := rfl

/-- The optional filters only discard messages. -/
theorem mem_typeFilter {msgs : List Message} {ty : Option String} {m : Message}
    (h : m ∈ typeFilter msgs ty) : m ∈ msgs := by
  unfold typeFilter at h
  split at h
  · split at h
    · exact h
    · exact (List.mem_filter.mp h).1
  · exact h

/-- The optional filters only discard messages. -/
theorem mem_searchFilter {msgs : List Message} {s : Option String} {m : Message}
    (h : m ∈ searchFilter msgs s) : m ∈ msgs := by
  unfold searchFilter at h
  split at h
  · split at h
    · exact h
    · exact (List.mem_filter.mp h).1
  · exact h

/-- The optional filters only discard messages. -/
theorem mem_applyFilters {msgs : List Message} {s ty : Option String} {m : Message}
    (h : m ∈ applyFilters msgs s ty) : m ∈ msgs :=
  mem_typeFilter (mem_searchFilter h)

/-- A member of a listing satisfies the chat-branch base filter of the store. -/
theorem mem_filtered_chat_subset (db : DB) (cid uid : Nat) (s ty : Option String)
    (msgs : List Message) (h : get_filtered_messages db (some cid) none uid s ty = .ok msgs)
    (m : Message) (hm : m ∈ msgs) :
    m ∈ db.messages ∧ m.chat_id = some cid ∧ m.is_deleted_for_all = false ∧
      hasVisibilityRow db m.id uid = false := by
  have hmsgs : msgs = ((applyFilters (db.messages.filter (fun m =>
      m.chat_id == some cid && m.is_deleted_for_all == false &&
      !(hasVisibilityRow db m.id uid))) s ty).insertionSort msgCreatedAsc) :=
    (Except.ok.inj h).symm
  rw [hmsgs, List.mem_insertionSort] at hm
  have hbase := List.mem_filter.mp (mem_applyFilters hm)
  refine ⟨hbase.1, ?_⟩
  have hp := hbase.2
  simp only [Bool.and_eq_true, beq_iff_eq, Bool.not_eq_true'] at hp
  exact ⟨hp.1.1, hp.1.2, hp.2⟩

/-- Membership characterization of a chat listing without optional filters. -/
theorem mem_filtered_chat (db : DB) (cid uid : Nat) (msgs : List Message)
    (h : get_filtered_messages db (some cid) none uid none none = .ok msgs) (m : Message) :
    m ∈ msgs ↔ m ∈ db.messages ∧ m.chat_id = some cid ∧ m.is_deleted_for_all = false ∧
      hasVisibilityRow db m.id uid = false := by
  rw [get_filtered_chat_eq] at h
  have hmsgs := (Except.ok.inj h).symm
  rw [hmsgs, List.mem_insertionSort, List.mem_filter]
  simp only [Bool.and_eq_true, beq_iff_eq, Bool.not_eq_true']
  tauto

/-- Membership characterization of a group listing without optional filters. -/
theorem mem_filtered_group (db : DB) (gid uid : Nat) (msgs : List Message)
    (h : get_filtered_messages db none (some gid) uid none none = .ok msgs) (m : Message) :
    m ∈ msgs ↔ m ∈ db.messages ∧ m.group_id = some gid ∧ m.is_deleted_for_all = false := by
  rw [get_filtered_group_eq] at h
  have hmsgs := (Except.ok.inj h).symm
  rw [hmsgs, List.mem_insertionSort, List.mem_filter]
  simp only [Bool.and_eq_true, beq_iff_eq]

/-- Elimination principle for the by-id row update. -/
theorem mem_updMessages_elim {msgs : List Message} {mid : Nat} {f : Message → Message}
    {m' : Message} (h : m' ∈ updMessages msgs mid f) :
    (∃ x, x ∈ msgs ∧ (x.id == mid) = true ∧ m' = f x) ∨
      (m' ∈ msgs ∧ (m'.id == mid) = false) := by
  unfold updMessages at h
  rcases List.mem_map.mp h with ⟨x, hx, hfx⟩
  by_cases hid : (x.id == mid) = true
  · exact .inl ⟨x, hx, hid, by rw [← hfx, if_pos hid]⟩
  · have hid' : (x.id == mid) = false := by simpa using hid
    have hxx : m' = x := by rw [← hfx, if_neg (by simp [hid'])]
    exact .inr ⟨hxx ▸ hx, hxx ▸ hid'⟩

/-- Reduction of `delete_message` in the delete-for-everyone branch. -/
theorem delete_message_forall_eq (db : DB) (mid u : Nat) (m : Message)
    (hfind : db.messages.find? (fun x => x.id == mid) = some m)
    (hs : (m.sender_id == u) = true) :
    delete_message db mid u true =
      .ok ⟨db.chats, updMessages db.messages mid (fun x => { x with is_deleted_for_all := true }),
           db.visibilities, db.reactions, db.group_members, db.blocks,
           db.next_chat_id, db.next_message_id, db.now⟩ := by
  unfold delete_message
  rw [hfind]
  simp [hs, updMessages]

/-- Reduction of `delete_message` in the hide-for-me branch when no
visibility row exists yet. -/
theorem delete_message_hide_eq (db : DB) (mid u : Nat) (m : Message)
    (hfind : db.messages.find? (fun x => x.id == mid) = some m)
    (hvis : hasVisibilityRow db mid u = false) :
    delete_message db mid u false =
      .ok ⟨db.chats, db.messages, db.visibilities ++ [⟨mid, u⟩], db.reactions,
           db.group_members, db.blocks, db.next_chat_id, db.next_message_id, db.now⟩ := by
  unfold delete_message
  rw [hfind]
  simp [hvis]

/-- Reduction of `delete_message` in the hide-for-me branch when the
visibility row already exists (the call is a no-op). -/
theorem delete_message_hide_noop (db : DB) (mid u : Nat) (m : Message)
    (hfind : db.messages.find? (fun x => x.id == mid) = some m)
    (hvis : hasVisibilityRow db mid u = true) :
    delete_message db mid u false = .ok db := by
  unfold delete_message
  rw [hfind]
  simp [hvis]

/-- Reduction of `unsend_message` for the sender. -/
theorem unsend_message_eq (db : DB) (mid u : Nat) (m : Message)
    (hfind : db.messages.find? (fun x => x.id == mid) = some m)
    (hs : (m.sender_id == u) = true) :
    unsend_message db mid u =
      .ok ⟨db.chats, updMessages db.messages mid (fun x =>
             { x with content := some "[Message deleted]", media_url := none,
                      is_deleted_for_all := true }),
           db.visibilities, db.reactions, db.group_members, db.blocks,
           db.next_chat_id, db.next_message_id, db.now⟩ := by
  unfold unsend_message
  rw [hfind]
  simp [hs, updMessages]

/-- Appending a visibility row for another user does not change
`hasVisibilityRow` for this user. -/
theorem hasVisibilityRow_append_other (db : DB) (v : MessageVisibility) (mid uid : Nat)
    (hne : (v.user_id == uid) = false) :
    hasVisibilityRow ⟨db.chats, db.messages, db.visibilities ++ [v], db.reactions,
      db.group_members, db.blocks, db.next_chat_id, db.next_message_id, db.now⟩ mid uid =
      hasVisibilityRow db mid uid := by
  unfold hasVisibilityRow
  rw [List.find?_append]
  have hv : ([v].find? (fun w => w.message_id == mid && w.user_id == uid)) = none := by
    simp [List.find?, hne]
  rw [hv]
  cases db.visibilities.find? (fun w => w.message_id == mid && w.user_id == uid) <;> rfl

/-! ## Claims about the chat directory -/

/-- C1 (amended): `get_user_chats u` returns exactly the chats in which `u`
participates with `is_accepted = true` and `blocked_by ≠ u` — so the
participant who set the block no longer sees the chat, while the blocked
participant still does — ordered by `created_at` descending. -/
theorem c1_list_chats_characterization (db : DB) (u : Nat) :
    (∀ c, c ∈ get_user_chats db u ↔
      (c ∈ db.chats ∧ (c.user1_id = u ∨ c.user2_id = u) ∧ c.is_accepted = true ∧
        c.blocked_by ≠ some u)) ∧
    List.Pairwise (fun c1 c2 => c2.created_at ≤ c1.created_at) (get_user_chats db u) := by
  constructor
  · intro c
    unfold get_user_chats
    rw [List.mem_insertionSort, List.mem_filter]
    have hb := sql_blocked_cond c.blocked_by u
    constructor
    · rintro ⟨hm, hp⟩
      simp only [Bool.and_eq_true, Bool.or_eq_true, beq_iff_eq] at hp
      exact ⟨hm, hp.1.1, hp.1.2, hb.mp (by simpa using hp.2)⟩
    · rintro ⟨hm, h1, h2, h3⟩
      refine ⟨hm, ?_⟩
      simp only [Bool.and_eq_true, Bool.or_eq_true, beq_iff_eq]
      exact ⟨⟨h1, h2⟩, by simpa using hb.mpr h3⟩
  · exact List.sorted_insertionSort chatCreatedDesc _

/-- C1 counterexample: user 1 blocked user 2 (`blocked_by = 1`); contrary to
the claim, the blocker's list is empty while the blocked user still sees the
chat. -/
theorem c1_counterexample :
    c1Chat.blocked_by = some 1 ∧ get_user_chats c1DB 1 = [] ∧
      get_user_chats c1DB 2 = [c1Chat] := by decide

/-- C1 witness: the characterization applied to the concrete store. -/
theorem c1_witness : c1Chat ∈ get_user_chats c1DB 2 ∧ c1Chat.blocked_by ≠ some 2 :=
  ⟨((c1_list_chats_characterization c1DB 2).1 c1Chat).mpr
      ⟨by decide, by decide, by decide, by decide⟩, by decide⟩

/-- Reduction of `create_or_get_chat` once the self-chat test is settled. -/
theorem create_or_get_chat_of_ne (db : DB) (a b : Nat) (hab : (a == b) = false) :
    create_or_get_chat db a b =
      (match db.chats.find? (chatPairPred a b) with
       | some chat => .ok (db, chat)
       | none =>
         .ok (⟨db.chats ++ [⟨db.next_chat_id, a, b, true, none, db.now⟩],
               db.messages, db.visibilities, db.reactions, db.group_members, db.blocks,
               db.next_chat_id + 1, db.next_message_id, db.now⟩,
              ⟨db.next_chat_id, a, b, true, none, db.now⟩)) := by
  unfold create_or_get_chat
  rw [hab]
  rfl

/-- A found pair chat is returned unchanged. -/
theorem create_or_get_chat_found (db : DB) (a b : Nat) (hab : (a == b) = false)
    (c : Chat) (hfind : db.chats.find? (chatPairPred a b) = some c) :
    create_or_get_chat db a b = .ok (db, c) := by
  rw [create_or_get_chat_of_ne db a b hab, hfind]

/-- C2 (amended): `create_or_get_chat` performs no block check at all — for
distinct users it succeeds even when a block exists between them in either
direction. -/
theorem c2_no_block_gate (db : DB) (a b : Nat) (hab : a ≠ b)
    (hbl : is_blocked db a b = true) :
    ∃ db' c, create_or_get_chat db a b = .ok (db', c) := by
  have hab' : (a == b) = false := beq_eq_false_iff_ne.mpr hab
  cases hfind : db.chats.find? (chatPairPred a b) with
  | some chat => exact ⟨db, chat, create_or_get_chat_found db a b hab' chat hfind⟩
  | none =>
    refine ⟨⟨db.chats ++ [⟨db.next_chat_id, a, b, true, none, db.now⟩], db.messages,
        db.visibilities, db.reactions, db.group_members, db.blocks, db.next_chat_id + 1,
        db.next_message_id, db.now⟩,
      ⟨db.next_chat_id, a, b, true, none, db.now⟩, ?_⟩
    rw [create_or_get_chat_of_ne db a b hab', hfind]

/-- C2 counterexample: a block between users 1 and 2 exists, yet
`create_or_get_chat 1 2` succeeds and inserts a new chat. -/
theorem c2_counterexample :
    is_blocked c2DB 1 2 = true ∧
      create_or_get_chat c2DB 1 2 =
        .ok ({ c2DB with chats := [c2NewChat], next_chat_id := 2 }, c2NewChat) := by decide

/-- C2 witness: the amended claim applied to the concrete blocked pair. -/
theorem c2_witness : ∃ db' c, create_or_get_chat c2DB 1 2 = .ok (db', c) :=
  c2_no_block_gate c2DB 1 2 (by decide) (by decide)

/-- C8: `create_or_get_chat` is idempotent and order-independent: a second
call, with either argument order, returns the same store and the same chat. -/
theorem c8_create_chat_idempotent (db : DB) (a b : Nat) (h : a ≠ b) :
    ∃ db1 c1, create_or_get_chat db a b = .ok (db1, c1) ∧
      create_or_get_chat db1 a b = .ok (db1, c1) ∧
      create_or_get_chat db1 b a = .ok (db1, c1) := by
  have hba : b ≠ a := fun hh => h hh.symm
  have hab' : (a == b) = false := beq_eq_false_iff_ne.mpr h
  have hba' : (b == a) = false := beq_eq_false_iff_ne.mpr hba
  cases hfind : db.chats.find? (chatPairPred a b) with
  | some chat =>
    have hfind' : db.chats.find? (chatPairPred b a) = some chat := by
      rw [chatPairPred_symm]; exact hfind
    exact ⟨db, chat, create_or_get_chat_found db a b hab' chat hfind,
      create_or_get_chat_found db a b hab' chat hfind,
      create_or_get_chat_found db b a hba' chat hfind'⟩
  | none =>
    refine ⟨⟨db.chats ++ [⟨db.next_chat_id, a, b, true, none, db.now⟩], db.messages,
        db.visibilities, db.reactions, db.group_members, db.blocks, db.next_chat_id + 1,
        db.next_message_id, db.now⟩,
      ⟨db.next_chat_id, a, b, true, none, db.now⟩, ?_, ?_, ?_⟩
    · rw [create_or_get_chat_of_ne db a b hab', hfind]
    · have h2 : (db.chats ++ [(⟨db.next_chat_id, a, b, true, none, db.now⟩ : Chat)]).find?
          (chatPairPred a b) = some ⟨db.next_chat_id, a, b, true, none, db.now⟩ := by
        rw [find?_append_singleton_of_none _ _ _ hfind]
        simp [chatPairPred]
      exact create_or_get_chat_found
        ⟨db.chats ++ [⟨db.next_chat_id, a, b, true, none, db.now⟩], db.messages,
         db.visibilities, db.reactions, db.group_members, db.blocks, db.next_chat_id + 1,
         db.next_message_id, db.now⟩ a b hab'
        ⟨db.next_chat_id, a, b, true, none, db.now⟩ h2
    · have h2 : (db.chats ++ [(⟨db.next_chat_id, a, b, true, none, db.now⟩ : Chat)]).find?
          (chatPairPred b a) = some ⟨db.next_chat_id, a, b, true, none, db.now⟩ := by
        rw [chatPairPred_symm, find?_append_singleton_of_none _ _ _ hfind]
        simp [chatPairPred]
      exact create_or_get_chat_found
        ⟨db.chats ++ [⟨db.next_chat_id, a, b, true, none, db.now⟩], db.messages,
         db.visibilities, db.reactions, db.group_members, db.blocks, db.next_chat_id + 1,
         db.next_message_id, db.now⟩ b a hba'
        ⟨db.next_chat_id, a, b, true, none, db.now⟩ h2

/-- C8 witness: the idempotence theorem applied to a concrete empty store. -/
theorem c8_witness :
    ∃ db1 c1, create_or_get_chat c8DB 1 2 = .ok (db1, c1) ∧
      create_or_get_chat db1 1 2 = .ok (db1, c1) ∧
      create_or_get_chat db1 2 1 = .ok (db1, c1) :=
  c8_create_chat_idempotent c8DB 1 2 (by decide)

/-! ## Claims about the message engine -/

/-- C3 (amended): after `delete_message(m, sender, for_everyone=true)` the
tombstone flag is set and chat listings never return the message to any
viewer; after `unsend_message(m, sender)` the message reads back with the
placeholder content `"[Message deleted]"` (not null/empty), `media_url`
cleared and the tombstone flag set. -/
theorem c3_tombstone_invariant (db : DB) (mid u : Nat) (db1 db2 : DB)
    (hdel : delete_message db mid u true = .ok db1)
    (huns : unsend_message db mid u = .ok db2) :
    (∀ m', m' ∈ db1.messages → m'.id = mid → m'.is_deleted_for_all = true) ∧
    (∀ cid viewer s t msgs,
      get_filtered_messages db1 (some cid) none viewer s t = .ok msgs →
      ∀ m', m' ∈ msgs → m'.id ≠ mid) ∧
    (∀ m', m' ∈ db2.messages → m'.id = mid →
      m'.content = some "[Message deleted]" ∧ m'.media_url = none ∧
      m'.is_deleted_for_all = true) := by
  cases hfind : db.messages.find? (fun x => x.id == mid) with
  | none =>
    unfold delete_message at hdel
    rw [hfind] at hdel
    simp at hdel
  | some m =>
    by_cases hs : (m.sender_id == u) = true
    · have hdeq := delete_message_forall_eq db mid u m hfind hs
      rw [hdeq] at hdel
      have hdb1 := Except.ok.inj hdel
      have huneq := unsend_message_eq db mid u m hfind hs
      rw [huneq] at huns
      have hdb2 := Except.ok.inj huns
      subst hdb1
      subst hdb2
      have fact1 : ∀ m', m' ∈ updMessages db.messages mid
          (fun x => { x with is_deleted_for_all := true }) → m'.id = mid →
          m'.is_deleted_for_all = true := by
        intro m' hm' hid
        rcases mem_updMessages_elim hm' with ⟨x, _, _, rfl⟩ | ⟨_, hfalse⟩
        · rfl
        · rw [hid] at hfalse
          simp at hfalse
      refine ⟨fact1, ?_, ?_⟩
      · intro cid viewer s t msgs hlist m' hm' hideq
        have hsub := mem_filtered_chat_subset _ cid viewer s t msgs hlist m' hm'
        have hflag := fact1 m' hsub.1 hideq
        have hff := hsub.2.2.1
        rw [hflag] at hff
        exact Bool.noConfusion hff
      · intro m' hm' hid
        rcases mem_updMessages_elim hm' with ⟨x, _, _, rfl⟩ | ⟨_, hfalse⟩
        · exact ⟨rfl, rfl, rfl⟩
        · rw [hid] at hfalse
          simp at hfalse
    · have hs' : (m.sender_id == u) = false := by simpa using hs
      unfold delete_message at hdel
      rw [hfind] at hdel
      simp [hs'] at hdel

/-- C3 counterexample: `unsend_message` writes the placeholder
`"[Message deleted]"`, which is neither null nor the empty string. -/
theorem c3_counterexample :
    unsend_message c3DB 10 1 = .ok c3DBu ∧
    c3MsgUns ∈ c3DBu.messages ∧ c3MsgUns.id = 10 ∧
    c3MsgUns.content ≠ none ∧ c3MsgUns.content ≠ some "" := by decide

/-- C3 witness: the amended claim applied to the concrete store. -/
theorem c3_witness :
    c3MsgUns.content = some "[Message deleted]" ∧ c3MsgUns.media_url = none ∧
    c3MsgUns.is_deleted_for_all = true :=
  (c3_tombstone_invariant c3DB 10 1 c3DBd c3DBu (by decide) (by decide)).2.2
    c3MsgUns (by decide) (by decide)

/-- C4 (amended): `edit_message` fails with the Forbidden-shaped 403 both
when the message is absent and when the actor is not the sender; when the
actor is the sender it sets `content` and `edited_at` unconditionally — in
particular it succeeds on a message whose `is_deleted_for_all` is true (no
`InvalidState` check and no `NotFound` distinction exist). -/
theorem c4_edit_message_behavior (db : DB) (mid u : Nat) (nc : String) :
    (db.messages.find? (fun x => x.id == mid) = none →
      edit_message db mid u nc =
        .error (.httpError 403 "Only the sender can edit the message")) ∧
    (∀ m, db.messages.find? (fun x => x.id == mid) = some m →
      (m.sender_id ≠ u →
        edit_message db mid u nc =
          .error (.httpError 403 "Only the sender can edit the message")) ∧
      (m.sender_id = u →
        ∃ db', edit_message db mid u nc =
            .ok (db', { m with content := some nc, edited_at := some db.now }) ∧
          (∀ m', m' ∈ db'.messages → m'.id = mid →
            m'.content = some nc ∧ m'.edited_at = some db.now) ∧
          db'.chats = db.chats ∧ db'.visibilities = db.visibilities)) := by
  constructor
  · intro hnone
    unfold edit_message
    rw [hnone]
  · intro m hfind
    constructor
    · intro hne
      have hs : (m.sender_id == u) = false := beq_eq_false_iff_ne.mpr hne
      unfold edit_message
      rw [hfind]
      simp [hs]
    · intro heq
      have hs : (m.sender_id == u) = true := beq_iff_eq.mpr heq
      refine ⟨⟨db.chats, updMessages db.messages mid (fun x =>
          { x with content := some nc, edited_at := some db.now }),
        db.visibilities, db.reactions, db.group_members, db.blocks,
        db.next_chat_id, db.next_message_id, db.now⟩, ?_, ?_, rfl, rfl⟩
      · unfold edit_message
        rw [hfind]
        simp [hs, updMessages]
      · intro m' hm' hid
        rcases mem_updMessages_elim hm' with ⟨x, _, _, rfl⟩ | ⟨_, hfalse⟩
        · exact ⟨rfl, rfl⟩
        · rw [hid] at hfalse
          simp at hfalse

/-- C4 counterexample: a missing message yields the 403 (not `NotFound`),
and editing a tombstoned message succeeds (no `InvalidState`). -/
theorem c4_counterexample :
    edit_message c4DB 99 1 "x" =
      .error (.httpError 403 "Only the sender can edit the message") ∧
    c4Msg.is_deleted_for_all = true ∧
    edit_message c4DB 10 1 "new" =
      .ok ({ c4DB with messages := [{ c4Msg with content := some "new", edited_at := some 8 }] },
           { c4Msg with content := some "new", edited_at := some 8 }) := by decide

/-- C4 witness: the non-sender rejection applied to the concrete store. -/
theorem c4_witness :
    edit_message c4DB 10 2 "x" =
      .error (.httpError 403 "Only the sender can edit the message") :=
  ((c4_edit_message_behavior c4DB 10 2 "x").2 c4Msg (by decide)).1 (by decide)

/-- C5 (amended): both chat and group targets exclude messages whose
`is_deleted_for_all` is true; the chat/group asymmetry is only in the
per-viewer visibility filter, which applies to chat targets alone. -/
theorem c5_tombstone_excluded_everywhere (db : DB) (cid gid uid : Nat) :
    (∀ msgs, get_filtered_messages db (some cid) none uid none none = .ok msgs →
      ∀ m, m ∈ msgs ↔ m ∈ db.messages ∧ m.chat_id = some cid ∧
        m.is_deleted_for_all = false ∧ hasVisibilityRow db m.id uid = false) ∧
    (∀ msgs, get_filtered_messages db none (some gid) uid none none = .ok msgs →
      ∀ m, m ∈ msgs ↔ m ∈ db.messages ∧ m.group_id = some gid ∧
        m.is_deleted_for_all = false) :=
  ⟨fun msgs h m => mem_filtered_chat db cid uid msgs h m,
   fun msgs h m => mem_filtered_group db gid uid msgs h m⟩

/-- C5 counterexample: a tombstoned group message is not returned as a row
in the group listing, contrary to the claim. -/
theorem c5_counterexample :
    c5Tomb ∈ c5DB.messages ∧ c5Tomb.group_id = some 5 ∧
    c5Tomb.is_deleted_for_all = true ∧
    get_filtered_messages c5DB none (some 5) 1 none none = .ok [c5Msg] := by decide

/-- C5 witness: the characterization applied to the concrete group store. -/
theorem c5_witness : c5Msg ∈ [c5Msg] :=
  ((c5_tombstone_excluded_everywhere c5DB 3 5 1).2 [c5Msg] rfl c5Msg).mpr
    ⟨by decide, by decide, by decide⟩

/-- C6 (amended): `forward_message` fails `NotFound` when the original is
absent; it requires membership only for group targets (403 for a
non-member); for chat targets no membership check is performed and the
forward succeeds for any sender; the copy is a brand-new message owned by
the sender with the original's `content`, `media_url` and `message_type`, a
fresh id and `created_at`, and no edit/delete state. -/
theorem c6_forward_message_behavior (db : DB) (oid sid : Nat) :
    (db.messages.find? (fun x => x.id == oid) = none →
      ∀ tc tg, forward_message db oid sid tc tg =
        .error (.httpError 404 "Original message not found")) ∧
    (∀ orig, db.messages.find? (fun x => x.id == oid) = some orig →
      (∀ cid, ∃ db' m', forward_message db oid sid (some cid) none = .ok (db', m') ∧
        m'.id = db.next_message_id ∧ m'.chat_id = some cid ∧ m'.group_id = none ∧
        m'.sender_id = sid ∧ m'.content = orig.content ∧ m'.media_url = orig.media_url ∧
        m'.message_type = orig.message_type ∧ m'.created_at = db.now ∧
        m'.edited_at = none ∧ m'.is_deleted_for_all = false ∧
        db'.messages = db.messages ++ [m']) ∧
      (∀ gid, (isGroupMember db gid sid = false →
          forward_message db oid sid none (some gid) =
            .error (.httpError 403 "You are not a member of the group")) ∧
        (isGroupMember db gid sid = true →
          ∃ db' m', forward_message db oid sid none (some gid) = .ok (db', m') ∧
            m'.id = db.next_message_id ∧ m'.chat_id = none ∧ m'.group_id = some gid ∧
            m'.sender_id = sid ∧ m'.content = orig.content ∧ m'.media_url = orig.media_url ∧
            m'.message_type = orig.message_type ∧ m'.created_at = db.now ∧
            m'.edited_at = none ∧ m'.is_deleted_for_all = false ∧
            db'.messages = db.messages ++ [m']))) := by
  constructor
  · intro hnone tc tg
    unfold forward_message
    rw [hnone]
  · intro orig hfind
    constructor
    · intro cid
      refine ⟨⟨db.chats, db.messages ++
          [⟨db.next_message_id, some cid, none, sid, orig.content, orig.media_url,
            orig.message_type, none, false, db.now⟩],
          db.visibilities, db.reactions, db.group_members, db.blocks,
          db.next_chat_id, db.next_message_id + 1, db.now⟩,
        ⟨db.next_message_id, some cid, none, sid, orig.content, orig.media_url,
          orig.message_type, none, false, db.now⟩,
        ?_, rfl, rfl, rfl, rfl, rfl, rfl, rfl, rfl, rfl, rfl, rfl⟩
      unfold forward_message
      rw [hfind]
    · intro gid
      constructor
      · intro hmem
        unfold forward_message
        rw [hfind]
        simp [hmem]
      · intro hmem
        refine ⟨⟨db.chats, db.messages ++
            [⟨db.next_message_id, none, some gid, sid, orig.content, orig.media_url,
              orig.message_type, none, false, db.now⟩],
            db.visibilities, db.reactions, db.group_members, db.blocks,
            db.next_chat_id, db.next_message_id + 1, db.now⟩,
          ⟨db.next_message_id, none, some gid, sid, orig.content, orig.media_url,
            orig.message_type, none, false, db.now⟩,
          ?_, rfl, rfl, rfl, rfl, rfl, rfl, rfl, rfl, rfl, rfl, rfl⟩
        unfold forward_message
        rw [hfind]
        simp [hmem]

/-- C6 counterexample: user 9 participates in no chat at all (the chats
table is empty), yet forwarding into chat 77 succeeds — no membership check
for chat targets. -/
theorem c6_counterexample :
    c6DB.chats = [] ∧
    forward_message c6DB 10 9 (some 77) none =
      .ok ({ c6DB with messages := [c6Msg, c6Fwd], next_message_id := 12 }, c6Fwd) := by decide

/-- C6 witness: the chat-target branch applied to the concrete store. -/
theorem c6_witness :
    ∃ db' m', forward_message c6DB 10 9 (some 77) none = .ok (db', m') ∧
      m'.id = c6DB.next_message_id ∧ m'.chat_id = some 77 ∧ m'.group_id = none ∧
      m'.sender_id = 9 ∧ m'.content = c6Msg.content ∧ m'.media_url = c6Msg.media_url ∧
      m'.message_type = c6Msg.message_type ∧ m'.created_at = c6DB.now ∧
      m'.edited_at = none ∧ m'.is_deleted_for_all = false ∧
      db'.messages = c6DB.messages ++ [m'] :=
  ((c6_forward_message_behavior c6DB 10 9).2 c6Msg (by decide)).1 77

/-- Upserting the emoji of the found reaction row: the re-query returns the
first matching row with the new emoji. -/
theorem find?_react_upsert (l : List Reaction) (mid uid : Nat) (e : String) (r0 : Reaction)
    (hfind : l.find? (fun r => r.message_id == mid && r.user_id == uid) = some r0) :
    (l.map (fun r => if r.message_id == mid && r.user_id == uid then
        { r with emoji := e } else r)).find?
      (fun r => r.message_id == mid && r.user_id == uid) = some { r0 with emoji := e } := by
  induction l with
  | nil => simp [List.find?] at hfind
  | cons a as ih =>
    by_cases ha : (a.message_id == mid && a.user_id == uid) = true
    · rw [@List.find?_cons_of_pos _ (fun r : Reaction => r.message_id == mid && r.user_id == uid)
        a as ha] at hfind
      have hr0 : r0 = a := (Option.some.inj hfind).symm
      rw [hr0]
      simp only [List.map_cons]
      rw [if_pos ha]
      exact @List.find?_cons_of_pos _ (fun r : Reaction => r.message_id == mid && r.user_id == uid)
        _ _ (show ((({ a with emoji := e } : Reaction)).message_id
          == mid && (({ a with emoji := e } : Reaction)).user_id == uid) = true from ha)
    · have ha' : (a.message_id == mid && a.user_id == uid) = false := by simpa using ha
      rw [@List.find?_cons_of_neg _ (fun r : Reaction => r.message_id == mid && r.user_id == uid)
        a as (by simp [ha'])] at hfind
      simp only [List.map_cons]
      rw [if_neg (by simp [ha']), @List.find?_cons_of_neg _
        (fun r : Reaction => r.message_id == mid && r.user_id == uid) _ _ (by simp [ha'])]
      exact ih hfind

/-- C7: hiding a message for user X (`for_everyone=false`) removes it from
X's chat listing only: Y's listing is entirely unchanged and still contains
the message; repeating the call for X is a no-op. -/
theorem c7_hide_is_local (db : DB) (m : Message) (cid X Y : Nat) (db' : DB)
    (hm : m ∈ db.messages) (hc : m.chat_id = some cid)
    (hflag : m.is_deleted_for_all = false)
    (hvX : hasVisibilityRow db m.id X = false)
    (hvY : hasVisibilityRow db m.id Y = false)
    (hXY : X ≠ Y)
    (hdel : delete_message db m.id X false = .ok db') :
    (∀ msgs, get_filtered_messages db' (some cid) none X none none = .ok msgs →
      m ∉ msgs) ∧
    get_filtered_messages db' (some cid) none Y none none =
      get_filtered_messages db (some cid) none Y none none ∧
    (∀ msgs, get_filtered_messages db' (some cid) none Y none none = .ok msgs →
      m ∈ msgs) ∧
    delete_message db' m.id X false = .ok db' := by
  have hsome : (db.messages.find? (fun x => x.id == m.id)).isSome :=
    List.find?_isSome.mpr ⟨m, hm, by simp⟩
  obtain ⟨m0, hfind⟩ := Option.isSome_iff_exists.mp hsome
  have hdeq := delete_message_hide_eq db m.id X m0 hfind hvX
  rw [hdeq] at hdel
  have hdb' := Except.ok.inj hdel
  subst hdb'
  have hbase : db.visibilities.find?
      (fun w => w.message_id == m.id && w.user_id == X) = none := by
    have := hvX
    unfold hasVisibilityRow at this
    cases hb : db.visibilities.find? (fun w => w.message_id == m.id && w.user_id == X) with
    | none => rfl
    | some w => rw [hb] at this; exact Bool.noConfusion this
  have hVisX : hasVisibilityRow
      ⟨db.chats, db.messages, db.visibilities ++ [⟨m.id, X⟩], db.reactions,
        db.group_members, db.blocks, db.next_chat_id, db.next_message_id, db.now⟩
      m.id X = true := by
    unfold hasVisibilityRow
    rw [List.find?_append, hbase]
    simp [List.find?]
  have hXYb : ((X : Nat) == Y) = false := beq_eq_false_iff_ne.mpr hXY
  have hVisYeq : ∀ mid', hasVisibilityRow
      ⟨db.chats, db.messages, db.visibilities ++ [⟨m.id, X⟩], db.reactions,
        db.group_members, db.blocks, db.next_chat_id, db.next_message_id, db.now⟩
      mid' Y = hasVisibilityRow db mid' Y := fun mid' =>
    hasVisibilityRow_append_other db ⟨m.id, X⟩ mid' Y hXYb
  refine ⟨?_, ?_, ?_, ?_⟩
  · intro msgs hlist hmem
    have hsub := mem_filtered_chat_subset _ cid X none none msgs hlist m hmem
    have hcontra := hsub.2.2.2
    rw [hVisX] at hcontra
    exact Bool.noConfusion hcontra
  · have hproj : (⟨db.chats, db.messages, db.visibilities ++ [⟨m.id, X⟩], db.reactions,
        db.group_members, db.blocks, db.next_chat_id, db.next_message_id,
        db.now⟩ : DB).messages = db.messages := rfl
    have hfeq : List.filter (fun m' => m'.chat_id == some cid &&
        m'.is_deleted_for_all == false &&
        !(hasVisibilityRow ⟨db.chats, db.messages, db.visibilities ++ [⟨m.id, X⟩],
            db.reactions, db.group_members, db.blocks, db.next_chat_id,
            db.next_message_id, db.now⟩ m'.id Y)) db.messages =
      List.filter (fun m' => m'.chat_id == some cid &&
        m'.is_deleted_for_all == false && !(hasVisibilityRow db m'.id Y)) db.messages :=
      List.filter_congr (fun x _ => by rw [hVisYeq x.id])
    rw [get_filtered_chat_eq, get_filtered_chat_eq, hproj, hfeq]
  · intro msgs hlist
    exact (mem_filtered_chat _ cid Y msgs hlist m).mpr
      ⟨hm, hc, hflag, by rw [hVisYeq m.id]; exact hvY⟩
  · exact delete_message_hide_noop _ m.id X m0 hfind hVisX

/-- C7 witness: the locality theorem applied to the concrete store (its
idempotence conjunct). -/
theorem c7_witness : delete_message c7DBAfter 10 2 false = .ok c7DBAfter :=
  (c7_hide_is_local c7DB c7Msg 3 2 1 c7DBAfter (by decide) rfl rfl (by decide)
    (by decide) (by decide) (by decide)).2.2.2

/-! ## Claims about the realtime fan-out -/

/-- C9: `broadcast_to_chat` delivers the event exactly to the users in the
chat's subscriber set that have a live connection; everyone else is silently
skipped, and the registry state is unchanged. -/
theorem c9_broadcast_exact (mgr : ConnectionManager) (cid : String) (data : String) :
    (broadcast_to_chat mgr cid data).1 = mgr ∧
    ∀ u e, (u, e) ∈ (broadcast_to_chat mgr cid data).2 ↔
      (u ∈ subscribersOf mgr cid ∧ is_online mgr u = true ∧ e = data) := by
  refine ⟨rfl, ?_⟩
  intro u e
  unfold broadcast_to_chat
  simp only [List.mem_flatMap]
  constructor
  · rintro ⟨a, ha, hmem⟩
    unfold send_to_user at hmem
    cases hconn : getConnection mgr a with
    | none => rw [hconn] at hmem; exact absurd hmem (List.not_mem_nil _)
    | some w =>
      rw [hconn] at hmem
      have hpair : (u, e) = (a, data) := List.mem_singleton.mp hmem
      have hu : u = a := congrArg Prod.fst hpair
      have he : e = data := congrArg Prod.snd hpair
      subst hu
      subst he
      exact ⟨ha, by unfold is_online; rw [hconn]; rfl, rfl⟩
  · rintro ⟨hu, honline, rfl⟩
    refine ⟨u, hu, ?_⟩
    unfold send_to_user
    cases hconn : getConnection mgr u with
    | some w => simp
    | none =>
      unfold is_online at honline
      rw [hconn] at honline
      exact Bool.noConfusion honline

/-- C9 witness: the broadcast characterization applied to a concrete
registry (user 3 is subscribed but has no live connection and is skipped;
users 1 and 2 receive the event). -/
theorem c9_witness : (1, "ev") ∈ (broadcast_to_chat c9Mgr "room" "ev").2 :=
  ((c9_broadcast_exact c9Mgr "room" "ev").2 1 "ev").mpr ⟨by decide, by decide, rfl⟩

/-- C10: for an existing message, both `react_to_message` and the
hide-for-me `delete_message` succeed for an arbitrary user — no membership
or authorization check is performed beyond the message's existence. -/
theorem c10_no_membership_check (db : DB) (m : Message) (u : Nat) (e : String)
    (hm : m ∈ db.messages) :
    (∃ db', delete_message db m.id u false = .ok db') ∧
    (react_to_message db m.id u e).2 = some ⟨m.id, u, e⟩ := by
  constructor
  · have hsome : (db.messages.find? (fun x => x.id == m.id)).isSome :=
      List.find?_isSome.mpr ⟨m, hm, by simp⟩
    obtain ⟨m0, hfind⟩ := Option.isSome_iff_exists.mp hsome
    by_cases hvis : hasVisibilityRow db m.id u = true
    · exact ⟨db, delete_message_hide_noop db m.id u m0 hfind hvis⟩
    · have hv : hasVisibilityRow db m.id u = false := by simpa using hvis
      exact ⟨_, delete_message_hide_eq db m.id u m0 hfind hv⟩
  · unfold react_to_message
    cases hfind : db.reactions.find? (fun r => r.message_id == m.id && r.user_id == u) with
    | some r0 =>
      show (db.reactions.map (fun r => if r.message_id == m.id && r.user_id == u then
          { r with emoji := e } else r)).find?
        (fun r => r.message_id == m.id && r.user_id == u) = some ⟨m.id, u, e⟩
      rw [find?_react_upsert db.reactions m.id u e r0 hfind]
      obtain ⟨a, b, _⟩ := r0
      have hp := List.find?_some hfind
      simp only [Bool.and_eq_true, beq_iff_eq] at hp
      simp [hp.1, hp.2]
    | none =>
      show (db.reactions ++ [(⟨m.id, u, e⟩ : Reaction)]).find?
        (fun r => r.message_id == m.id && r.user_id == u) = some ⟨m.id, u, e⟩
      rw [find?_append_singleton_of_none _ _ _ hfind]
      simp

/-- C10 witness: user 7 is neither participant of chat 3 (whose members are
1 and 2) nor member of any group, yet both operations succeed. -/
theorem c10_witness :
    (∃ db', delete_message c10DB 10 7 false = .ok db') ∧
    (react_to_message c10DB 10 7 "heart").2 = some ⟨10, 7, "heart"⟩ :=
  c10_no_membership_check c10DB c10Msg 7 "heart" (by decide)

end Umbrella
